import Mathlib

/-!
Verification of the PortuVan trip-generation and scoring engine
(`dashboard.py`).

The scoring engine (`load_data`, lines 84-90) is embedded over `ℝ`:
`np.log10` on a positive argument becomes `Real.logb 10`, while its
NaN or -inf outcomes on non-positive arguments are modelled as `none`
(`np_log10`); the `pd.to_numeric` (errors coerced to NaN) followed by
`.fillna(0)` sanitization becomes `Option ℝ → ℝ` with default `0`.

The itinerary generator (`generate_random_trip`, lines 108-132) is embedded
over `ℚ`-valued location records.  The pandas `.sample(1)` call is an
ambient source of randomness; it is modelled by an explicit selection
function `pick : List Location → Option Location`, constrained by
`ValidPick` to behave as `sample` does: it returns an element of a
non-empty pool and nothing on an empty pool.  All theorems about the
generator hold for every such selection function.

The route-segment fallback (`get_route_segment`, lines 94-105) and the trip
assembly loop of tab 2 (lines 202-223) are embedded with the external OSRM
call abstracted as a `fetch` function returning `Option (geometry ×
distance × duration)`.
-/

namespace PortuVan

/-- The desirability score of `load_data` (dashboard.py line 88):
`rating * log10(user_ratings_total + 1) + amenity_score / 25`. -/
noncomputable def weighted_score (rating reviews amenity : ℝ) : ℝ :=
  rating * Real.logb 10 (reviews + 1) + amenity / 25

/-- Numeric sanitization of `load_data` (lines 84-86): a missing or
non-numeric cell (`none`) is coerced to `0`, a numeric cell passes
through untouched — in particular a negative numeric value survives.
Models the `pd.to_numeric` coercion followed by `.fillna(0)`. -/
def coerce_numeric (x : Option ℝ) : ℝ := x.getD 0

/-- `np.log10` as the program runs it: a finite real for a positive
argument, and no real value otherwise (numpy yields NaN for a negative
argument and -inf at zero; both non-real outcomes are modelled as
`none`). -/
noncomputable def np_log10 (x : ℝ) : Option ℝ :=
  if 0 < x then some (Real.logb 10 x) else none

/-- The per-row scoring pipeline of `load_data` (lines 84-90): sanitize
the three raw cells, then compute
`rating * np.log10(user_ratings_total + 1) + amenity_score / 25`; a
NaN or -inf from the log propagates, leaving no well-defined score
(`none`). -/
noncomputable def load_row_score_np (rating reviews amenity : Option ℝ) :
    Option ℝ :=
  (np_log10 (coerce_numeric reviews + 1)).map
    (fun lg => coerce_numeric rating * lg + coerce_numeric amenity / 25)

/-- A row of the scored dataframe consumed by `generate_random_trip`.
Coordinates and numeric signals are rationals; `weighted_score` is the
stored value of the derived score column, read (never recomputed) by the
generator. -/
structure Location where
  name : String
  lat : ℚ
  lon : ℚ
  type : String
  rating : ℚ
  user_ratings_total : ℚ
  amenity_score : ℚ
  weighted_score : ℚ
  deriving Repr, DecidableEq

/-- `LISBON_COORDS` (dashboard.py line 66). -/
def LISBON_COORDS : ℚ × ℚ := (38.7223, -9.1393)

/-- `PORTO_COORDS` (dashboard.py line 67). -/
def PORTO_COORDS : ℚ × ℚ := (41.1579, -8.6291)

/-- The fixed start endpoint appended first by `generate_random_trip`
(line 110).  The source dict carries only name/lat/lon/type/rating; the
remaining numeric fields default to `0`. -/
def lisbonStart : Location :=
  { name := "Lisbon", lat := LISBON_COORDS.1, lon := LISBON_COORDS.2,
    type := "Start", rating := 5.0, user_ratings_total := 0,
    amenity_score := 0, weighted_score := 0 }

/-- The fixed end endpoint appended last by `generate_random_trip`
(line 131). -/
def portoEnd : Location :=
  { name := "Porto", lat := PORTO_COORDS.1, lon := PORTO_COORDS.2,
    type := "End", rating := 5.0, user_ratings_total := 0,
    amenity_score := 0, weighted_score := 0 }

/-- The preference filter of `generate_random_trip` (lines 112-117):
"Wild & Nature" keeps `amenity_score > 70`, "Popular & Social" keeps
`user_ratings_total > 500`, everything else keeps the whole dataframe. -/
def preference_candidates (df : List Location) (preference : String) :
    List Location :=
  if preference = "Wild & Nature" then
    df.filter (fun l => decide (l.amenity_score > 70))
  else if preference = "Popular & Social" then
    df.filter (fun l => decide (l.user_ratings_total > 500))
  else
    df

/-- The Alentejo band (line 119): `lat < 38.6` and `lat > 37.3`. -/
def alentejo_band (candidates : List Location) : List Location :=
  candidates.filter (fun l => decide (l.lat < 38.6) && decide (l.lat > 37.3))

/-- The Algarve band (line 123): `lat < 37.2`. -/
def algarve_band (candidates : List Location) : List Location :=
  candidates.filter (fun l => decide (l.lat < 37.2))

/-- The central band (line 127): `lat > 39.0` and `lat < 40.8`. -/
def center_band (candidates : List Location) : List Location :=
  candidates.filter (fun l => decide (l.lat > 39.0) && decide (l.lat < 40.8))

/-- The Algarve selection pool (line 125): the band sorted by
`weighted_score` descending, restricted to the top 5
(`sort_values` by weighted score descending, then `head(5)`). -/
def algarve_top5 (candidates : List Location) : List Location :=
  ((algarve_band candidates).mergeSort
    (fun a b => decide (b.weighted_score ≤ a.weighted_score))).take 5

/-- `pick` models the ambient `.sample(1).iloc[0]` randomness: it returns
some element of a non-empty pool and `none` exactly on the empty pool. -/
def ValidPick (pick : List Location → Option Location) : Prop :=
  ∀ l : List Location,
    (pick l = none → l = []) ∧ ∀ x : Location, pick l = some x → x ∈ l

/-- A concrete deterministic selection function (always the first row),
used to instantiate the universally quantified theorems. -/
def headPick (l : List Location) : Option Location := l.head?

/-- `generate_random_trip` (lines 108-132): start endpoint, then one
sampled stop per non-empty band (Alentejo uniform, Algarve from the
top-5-by-score pool, center uniform), then the end endpoint.  A `none`
pick (empty pool) contributes no stop, mirroring the
`if not band.empty` guards. -/
def generate_random_trip (pick : List Location → Option Location)
    (df : List Location) (preference : String) : List Location :=
  let candidates := preference_candidates df preference
  lisbonStart ::
    (((pick (alentejo_band candidates)).toList ++
      (pick (algarve_top5 candidates)).toList ++
      (pick (center_band candidates)).toList) ++
      [portoEnd])

/-- Number of bands whose candidate pool is non-empty, the number of
non-endpoint stops a valid pick produces. -/
def band_count (candidates : List Location) : ℕ :=
  (if alentejo_band candidates = [] then 0 else 1) +
    (if algarve_band candidates = [] then 0 else 1) +
    (if center_band candidates = [] then 0 else 1)

/-- `get_route_segment` (lines 94-105) with the external OSRM request
abstracted as `fetch`: on success the geometry, distance and duration are
returned; on any failure the fallback is `(None, 0, 0)`. -/
def get_route_segment (fetch : ℚ × ℚ → ℚ × ℚ → Option (String × ℚ × ℚ))
    (a b : ℚ × ℚ) : Option String × ℚ × ℚ :=
  match fetch a b with
  | some (geo, dist, dur) => (some geo, dist, dur)
  | none => (none, 0, 0)

/-- The drive-time label of the tab-2 loop (lines 215-217):
`hours = int(dur // 3600)`, `mins = int((dur % 3600) // 60)`, label
`"{h}h {m}m"` when `hours > 0`, else `"{m}m"`. -/
def format_drive_time (dur : ℚ) : String :=
  let hours : ℤ := ⌊dur / 3600⌋
  let mins : ℤ := ⌊(dur - 3600 * ⌊dur / 3600⌋) / 60⌋
  if hours > 0 then toString hours ++ "h " ++ toString mins ++ "m"
  else toString mins ++ "m"

/-- The legs of the tab-2 assembly loop (lines 208-217), walking
consecutive stop pairs from `prev`: each destination stop gets a
drive-time label from the duration of its leg, and distances/durations are
accumulated. Returns (labelled stops after `prev`, total distance, total
duration). -/
def assemble_legs (fetch : ℚ × ℚ → ℚ × ℚ → Option (String × ℚ × ℚ)) :
    Location → List Location → List (Location × String) × ℚ × ℚ
  | _, [] => ([], 0, 0)
  | prev, next :: rest =>
    let seg := get_route_segment fetch (prev.lat, prev.lon) (next.lat, next.lon)
    let tail := assemble_legs fetch next rest
    ((next, format_drive_time seg.2.2) :: tail.1,
      seg.2.1 + tail.2.1, seg.2.2 + tail.2.2)

/-- The whole tab-2 trip assembly (lines 204-217): the first stop is
labelled "Start" (line 206) and the remaining stops are labelled by the
leg loop. Returns (labelled stops, total distance, total duration). -/
def assemble_trip (fetch : ℚ × ℚ → ℚ × ℚ → Option (String × ℚ × ℚ)) :
    List Location → List (Location × String) × ℚ × ℚ
  | [] => ([], 0, 0)
  | first :: rest =>
    let legs := assemble_legs fetch first rest
    ((first, "Start") :: legs.1, legs.2.1, legs.2.2)

/-- A routing collaborator that fails on every leg. -/
def failFetch : ℚ × ℚ → ℚ × ℚ → Option (String × ℚ × ℚ) := fun _ _ => none

/-- Location "A" of the concrete scenario in section 8 of the spec. -/
def locA : Location :=
  { name := "A", lat := 38.0, lon := -8.5, type := "Campsite",
    rating := 4.5, user_ratings_total := 600, amenity_score := 80,
    weighted_score := 0 }

/-- Location "B" of the concrete scenario in section 8 of the spec. -/
def locB : Location :=
  { name := "B", lat := 37.0, lon := -8.0, type := "Beach",
    rating := 4.8, user_ratings_total := 1000, amenity_score := 50,
    weighted_score := 0 }

/-- A single wild location used to witness the WildNature theorem. -/
def wildLoc : Location :=
  { name := "W", lat := 38.0, lon := -8.5, type := "Viewpoint",
    rating := 4.0, user_ratings_total := 100, amenity_score := 90,
    weighted_score := 0 }

/-- A location in the central band, completing a dataset that has one
qualifying candidate in every band. -/
def centerLoc : Location :=
  { name := "C", lat := 40.0, lon := -8.2, type := "Hiking",
    rating := 4.2, user_ratings_total := 300, amenity_score := 60,
    weighted_score := 0 }

/-- A demo dataset with exactly one candidate per geographic band. -/
def demoDf : List Location := [locA, locB, centerLoc]

/-- The deterministic head selection satisfies the sampling contract. -/
theorem headPick_valid : ValidPick headPick := by
  intro l
  cases l with
  | nil =>
    exact ⟨fun _ => rfl, fun x h => by simp [headPick] at h⟩
  | cons a t =>
    refine ⟨fun h => by simp [headPick] at h, fun x h => ?_⟩
    rw [headPick, List.head?_cons, Option.some_inj] at h
    exact h ▸ List.mem_cons_self a t

/-- A valid pick contributes one stop on a non-empty pool and none on an
empty pool. -/
theorem validPick_toList_length (pick : List Location → Option Location)
    (hp : ValidPick pick) (l : List Location) :
    ((pick l).toList).length = if l = [] then 0 else 1 := by
  cases h : pick l with
  | none =>
    simp [(hp l).1 h]
  | some x =>
    have hx := (hp l).2 x h
    have hne : l ≠ [] := fun he => by subst he; simp at hx
    simp [hne]

/-- A stop contributed by a valid pick belongs to its pool. -/
theorem validPick_mem (pick : List Location → Option Location)
    (hp : ValidPick pick) (l : List Location) (x : Location)
    (hx : x ∈ (pick l).toList) : x ∈ l := by
  cases h : pick l with
  | none =>
    rw [h] at hx
    simp at hx
  | some y =>
    rw [h] at hx
    simp at hx
    rw [hx]
    exact (hp l).2 y h

/-- Membership in the Alentejo band pool gives the latitude window. -/
theorem mem_alentejo_band (c : List Location) (x : Location)
    (hx : x ∈ alentejo_band c) :
    x ∈ c ∧ 37.3 < x.lat ∧ x.lat < 38.6 := by
  rw [alentejo_band, List.mem_filter] at hx
  simp only [Bool.and_eq_true, decide_eq_true_eq] at hx
  exact ⟨hx.1, hx.2.2, hx.2.1⟩

/-- Membership in the central band pool gives the latitude window. -/
theorem mem_center_band (c : List Location) (x : Location)
    (hx : x ∈ center_band c) :
    x ∈ c ∧ 39.0 < x.lat ∧ x.lat < 40.8 := by
  rw [center_band, List.mem_filter] at hx
  simp only [Bool.and_eq_true, decide_eq_true_eq] at hx
  exact ⟨hx.1, hx.2.1, hx.2.2⟩

/-- Membership in the Algarve top-5 pool gives the latitude bound. -/
theorem mem_algarve_top5_band (c : List Location) (x : Location)
    (hx : x ∈ algarve_top5 c) : x ∈ c ∧ x.lat < 37.2 := by
  unfold algarve_top5 at hx
  have h1 := List.mem_of_mem_take hx
  have h2 : x ∈ algarve_band c := List.mem_mergeSort.mp h1
  rw [algarve_band, List.mem_filter] at h2
  simp only [decide_eq_true_eq] at h2
  exact h2

/-- The Algarve top-5 pool is empty exactly when the band is. -/
theorem algarve_top5_eq_nil_iff (c : List Location) :
    algarve_top5 c = [] ↔ algarve_band c = [] := by
  unfold algarve_top5
  rw [List.take_eq_nil_iff]
  constructor
  · rintro (h | h)
    · simp at h
    · have hl := congrArg List.length h
      rw [List.length_mergeSort] at hl
      exact List.eq_nil_of_length_eq_zero hl
  · intro h
    right
    rw [h, List.mergeSort_nil]

/-- The non-endpoint stops of a generated trip are exactly the three
band contributions. -/
theorem trip_middle_eq (pick : List Location → Option Location)
    (df : List Location) (preference : String) :
    ((generate_random_trip pick df preference).drop 1).dropLast =
      (pick (alentejo_band (preference_candidates df preference))).toList ++
        (pick (algarve_top5 (preference_candidates df preference))).toList ++
        (pick (center_band (preference_candidates df preference))).toList := by
  simp only [generate_random_trip, List.drop_one, List.tail_cons,
    List.dropLast_concat]

/-- Every non-endpoint stop comes from one of the three band pools. -/
theorem mem_trip_middle (pick : List Location → Option Location)
    (hp : ValidPick pick) (df : List Location) (preference : String)
    (x : Location)
    (hx : x ∈ ((generate_random_trip pick df preference).drop 1).dropLast) :
    x ∈ alentejo_band (preference_candidates df preference) ∨
      x ∈ algarve_top5 (preference_candidates df preference) ∨
      x ∈ center_band (preference_candidates df preference) := by
  rw [trip_middle_eq] at hx
  rcases List.mem_append.mp hx with h | h
  · rcases List.mem_append.mp h with h1 | h1
    · exact Or.inl (validPick_mem pick hp _ x h1)
    · exact Or.inr (Or.inl (validPick_mem pick hp _ x h1))
  · exact Or.inr (Or.inr (validPick_mem pick hp _ x h))

/-- The Balanced preference leaves the dataset unfiltered. -/
theorem preference_candidates_balanced (df : List Location) :
    preference_candidates df "Balanced" = df := rfl

/-- Wild & Nature candidates all have amenity score above 70. -/
theorem mem_wild_candidates (df : List Location) (x : Location)
    (hx : x ∈ preference_candidates df "Wild & Nature") :
    x ∈ df ∧ 70 < x.amenity_score := by
  have he : preference_candidates df "Wild & Nature" =
      df.filter (fun l => decide (l.amenity_score > 70)) := rfl
  rw [he, List.mem_filter] at hx
  simpa using hx

/-- The generated trip always starts with the Lisbon endpoint. -/
theorem trip_head_eq (pick : List Location → Option Location)
    (df : List Location) (preference : String) :
    (generate_random_trip pick df preference).head? = some lisbonStart := rfl

/-- The generated trip always ends with the Porto endpoint. -/
theorem trip_getLast_eq (pick : List Location → Option Location)
    (df : List Location) (preference : String) :
    (generate_random_trip pick df preference).getLast? = some portoEnd := by
  have he : generate_random_trip pick df preference =
      (lisbonStart ::
        ((pick (alentejo_band (preference_candidates df preference))).toList ++
          (pick (algarve_top5 (preference_candidates df preference))).toList ++
          (pick (center_band (preference_candidates df preference))).toList)) ++
        [portoEnd] := by
    simp [generate_random_trip]
  rw [he, List.getLast?_concat]

/-- Trip length is two endpoints plus one stop per non-empty band. -/
theorem trip_length_eq (pick : List Location → Option Location)
    (hp : ValidPick pick) (df : List Location) (preference : String) :
    (generate_random_trip pick df preference).length =
      2 + band_count (preference_candidates df preference) := by
  have h1 := validPick_toList_length pick hp
    (alentejo_band (preference_candidates df preference))
  have h2 := validPick_toList_length pick hp
    (algarve_top5 (preference_candidates df preference))
  have h3 := validPick_toList_length pick hp
    (center_band (preference_candidates df preference))
  simp only [generate_random_trip, List.length_cons, List.length_append,
    List.length_singleton, List.length_nil, h1, h2, h3, band_count,
    algarve_top5_eq_nil_iff]
  split_ifs <;> omega

/-- Claim C1: for every location, the scoring engine computes the
desirability score as exactly rating * log10(review_count + 1) +
(amenity_score / 25), as a pure function of those three numeric inputs;
in particular review_count = 0 collapses the log term, reducing the score
to the amenity term alone. -/
theorem C1_score_formula :
    (∀ rating reviews amenity : ℝ,
        weighted_score rating reviews amenity =
          rating * Real.logb 10 (reviews + 1) + amenity / 25) ∧
    ∀ rating amenity : ℝ, weighted_score rating 0 amenity = amenity / 25 := by
  refine ⟨fun _ _ _ => rfl, fun r a => ?_⟩
  simp [weighted_score, Real.logb_one]

/-- Counterexample for C6: the claim as stated is false on the code. A
numeric review count of -2 passes the `fillna(0)` coercion untouched
(only missing/non-parseable cells are canonicalized), `np.log10` is then
applied to -1 and yields NaN, so the score is not a well-defined real
number — refuting "output is never NaN or undefined" for every input. -/
theorem C6_sanitization_counterexample :
    load_row_score_np (some 4.5) (some (-2)) (some 50) = none := by
  unfold load_row_score_np np_log10 coerce_numeric
  norm_num

/-- Amended claim C6: missing and non-numeric cells are coerced to 0
before scoring, and whenever the sanitized review count is non-negative
(the only review counts the data model admits) the scoring engine never
fails and produces the well-defined real score of the line-88 formula —
in particular the all-missing row scores the neutral value 0. Negative
numeric review counts, which slip through the coercion, are excluded:
they reach `np.log10` with a non-positive argument (see the
counterexample). -/
theorem C6_sanitization_nonneg (rating reviews amenity : Option ℝ)
    (hn : 0 ≤ reviews.getD 0) :
    load_row_score_np rating reviews amenity =
        some (weighted_score (rating.getD 0) (reviews.getD 0)
          (amenity.getD 0)) ∧
      (∀ x : ℝ, coerce_numeric (some x) = x) ∧
      coerce_numeric none = 0 ∧
      load_row_score_np none none none = some 0 := by
  have hpos : 0 < coerce_numeric reviews + 1 := by
    simp only [coerce_numeric]
    linarith
  refine ⟨?_, fun _ => rfl, rfl, ?_⟩
  · unfold load_row_score_np np_log10
    rw [if_pos hpos]
    rfl
  · unfold load_row_score_np np_log10 coerce_numeric
    norm_num

/-- Witness for the amended C6: a missing review count is coerced to 0
and still yields a well-defined score. -/
theorem C6_sanitization_nonneg_witness :
    (0 : ℝ) ≤ (none : Option ℝ).getD 0 ∧
      load_row_score_np (some 4.5) none (some 50) =
        some (weighted_score 4.5 0 50) :=
  ⟨by simp,
    (C6_sanitization_nonneg (some 4.5) none (some 50) (by simp)).1⟩

/-- Claim C7: over the input domain of the data model (rating ≥ 0, review
count ≥ 0), the score is monotonically non-decreasing in rating with
review count and amenity fixed, and non-decreasing in review count with
rating and amenity fixed. -/
theorem C7_monotone (r r' n n' a : ℝ) (hr : 0 ≤ r) (hn : 0 ≤ n) :
    (r ≤ r' → weighted_score r n a ≤ weighted_score r' n a) ∧
    (n ≤ n' → weighted_score r n a ≤ weighted_score r n' a) := by
  have hb : (1 : ℝ) < 10 := by norm_num
  constructor
  · intro hrr
    have hl : 0 ≤ Real.logb 10 (n + 1) := Real.logb_nonneg hb (by linarith)
    have h2 := mul_le_mul_of_nonneg_right hrr hl
    show r * Real.logb 10 (n + 1) + a / 25 ≤ r' * Real.logb 10 (n + 1) + a / 25
    exact add_le_add_right h2 (a / 25)
  · intro hnn
    have hl : Real.logb 10 (n + 1) ≤ Real.logb 10 (n' + 1) :=
      Real.logb_le_logb_of_le hb (by linarith) (by linarith)
    have h2 := mul_le_mul_of_nonneg_left hl hr
    show r * Real.logb 10 (n + 1) + a / 25 ≤ r * Real.logb 10 (n' + 1) + a / 25
    exact add_le_add_right h2 (a / 25)

/-- Witness for C7 at rating 4 ≤ 4.5 and review counts 100 ≤ 200, with
amenity 50. -/
theorem C7_monotone_witness :
    (0 : ℝ) ≤ 4 ∧ (0 : ℝ) ≤ 100 ∧
      weighted_score 4 100 50 ≤ weighted_score 4.5 100 50 ∧
      weighted_score 4 100 50 ≤ weighted_score 4 200 50 :=
  ⟨by norm_num, by norm_num,
    (C7_monotone 4 4.5 100 200 50 (by norm_num) (by norm_num)).1 (by norm_num),
    (C7_monotone 4 4.5 100 200 50 (by norm_num) (by norm_num)).2 (by norm_num)⟩

/-- Claim C2: for every dataset and valid sampling function, the
itinerary has length 2 plus the number of bands with a non-empty
candidate pool (an empty band is skipped, with no placeholder), its first
element is the start endpoint and its last element the end endpoint; in
particular, under the Balanced preference on a dataset where every band
has a qualifying candidate, the length is exactly 2 + 3 = 5. -/
theorem C2_itinerary_length (pick : List Location → Option Location)
    (hp : ValidPick pick) (df : List Location) (preference : String) :
    (generate_random_trip pick df preference).length =
        2 + band_count (preference_candidates df preference) ∧
      (generate_random_trip pick df preference).head? = some lisbonStart ∧
      (generate_random_trip pick df preference).getLast? = some portoEnd ∧
      (alentejo_band df ≠ [] → algarve_band df ≠ [] → center_band df ≠ [] →
        (generate_random_trip pick df "Balanced").length = 5) := by
  refine ⟨trip_length_eq pick hp df preference, trip_head_eq pick df preference,
    trip_getLast_eq pick df preference, fun h1 h2 h3 => ?_⟩
  rw [trip_length_eq pick hp df "Balanced", preference_candidates_balanced]
  simp only [band_count, if_neg h1, if_neg h2, if_neg h3]

/-- Witness for C2 on a dataset with one candidate in each band. -/
theorem C2_itinerary_length_witness :
    ValidPick headPick ∧
      (generate_random_trip headPick demoDf "Balanced").length = 5 :=
  ⟨headPick_valid,
    (C2_itinerary_length headPick headPick_valid demoDf "Balanced").2.2.2
      (by norm_num [alentejo_band, demoDf, locA, locB, centerLoc])
      (by norm_num [algarve_band, demoDf, locA, locB, centerLoc])
      (by norm_num [center_band, demoDf, locA, locB, centerLoc])⟩

/-- Claim C3: under the Wild & Nature preference, every non-endpoint stop
of a generated itinerary has amenity score strictly above 70. -/
theorem C3_wild_nature (pick : List Location → Option Location)
    (hp : ValidPick pick) (df : List Location) (x : Location)
    (hx : x ∈
      ((generate_random_trip pick df "Wild & Nature").drop 1).dropLast) :
    70 < x.amenity_score := by
  have hcand : x ∈ preference_candidates df "Wild & Nature" := by
    rcases mem_trip_middle pick hp df "Wild & Nature" x hx with h | h | h
    · exact (mem_alentejo_band _ x h).1
    · exact (mem_algarve_top5_band _ x h).1
    · exact (mem_center_band _ x h).1
  exact (mem_wild_candidates df x hcand).2

/-- The non-endpoint stops of the Wild & Nature demo trip. -/
theorem wild_demo_middle :
    ((generate_random_trip headPick [wildLoc] "Wild & Nature").drop 1).dropLast
      = [wildLoc] := by
  rw [trip_middle_eq]
  have hc : preference_candidates [wildLoc] "Wild & Nature" = [wildLoc] := by
    norm_num [preference_candidates, wildLoc]
  rw [hc]
  have hb : algarve_band [wildLoc] = [] := by
    norm_num [algarve_band, wildLoc]
  have h5 : algarve_top5 [wildLoc] = [] := by
    unfold algarve_top5
    rw [hb, List.mergeSort_nil]
    rfl
  rw [h5, show alentejo_band [wildLoc] = [wildLoc] from by
    norm_num [alentejo_band, wildLoc]]
  rw [show center_band [wildLoc] = [] from by norm_num [center_band, wildLoc]]
  rfl

/-- Witness for C3: on the one-location wild dataset the single
non-endpoint stop has amenity score 90 > 70. -/
theorem C3_wild_nature_witness :
    ValidPick headPick ∧
      wildLoc ∈
        ((generate_random_trip headPick [wildLoc] "Wild & Nature").drop
          1).dropLast ∧
      70 < wildLoc.amenity_score :=
  ⟨headPick_valid, by rw [wild_demo_middle]; exact List.mem_singleton.mpr rfl,
    C3_wild_nature headPick headPick_valid [wildLoc] wildLoc
      (by rw [wild_demo_middle]; exact List.mem_singleton.mpr rfl)⟩

/-- Claim C5: on an empty location set with the Balanced preference the
generator returns exactly the two endpoints. -/
theorem C5_empty_dataset (pick : List Location → Option Location)
    (hp : ValidPick pick) :
    generate_random_trip pick [] "Balanced" = [lisbonStart, portoEnd] := by
  have hnone : pick [] = none := by
    cases h : pick [] with
    | none => rfl
    | some y =>
      have hy := (hp []).2 y h
      simp at hy
  have h5 : algarve_top5 [] = [] := by
    unfold algarve_top5
    rw [show algarve_band [] = [] from rfl, List.mergeSort_nil]
    rfl
  simp only [generate_random_trip, preference_candidates_balanced]
  rw [show alentejo_band [] = [] from rfl,
    show center_band [] = [] from rfl, h5, hnone]
  rfl

/-- Witness for C5 with the deterministic head selection. -/
theorem C5_empty_dataset_witness :
    ValidPick headPick ∧
      generate_random_trip headPick [] "Balanced" = [lisbonStart, portoEnd] :=
  ⟨headPick_valid, C5_empty_dataset headPick headPick_valid⟩

/-- Claim C9: any preference string other than the two recognized filter
modes behaves exactly as the Balanced preference: the candidate pool is
the full unfiltered dataset and the generated trip is identical. -/
theorem C9_unrecognized_mode (pick : List Location → Option Location)
    (df : List Location) (preference : String)
    (h1 : preference ≠ "Wild & Nature")
    (h2 : preference ≠ "Popular & Social") :
    generate_random_trip pick df preference =
      generate_random_trip pick df "Balanced" := by
  have hc : preference_candidates df preference = df := by
    unfold preference_candidates
    rw [if_neg h1, if_neg h2]
  simp only [generate_random_trip, hc, preference_candidates_balanced]

/-- Witness for C9 with the unrecognized preference "Roadtrip". -/
theorem C9_unrecognized_mode_witness :
    "Roadtrip" ≠ "Wild & Nature" ∧ "Roadtrip" ≠ "Popular & Social" ∧
      generate_random_trip headPick [locA, locB] "Roadtrip" =
        generate_random_trip headPick [locA, locB] "Balanced" :=
  ⟨by decide, by decide,
    C9_unrecognized_mode headPick [locA, locB] "Roadtrip" (by decide)
      (by decide)⟩

/-- Claim C10: every non-endpoint stop lies strictly inside one of the
three latitude bands (below 37.2, between 37.3 and 38.6, or between 39.0
and 40.8); latitudes in the gaps [37.2, 37.3] and [38.6, 39.0], or at or
above 40.8, are never selected — all band bounds are exclusive. -/
theorem C10_band_gaps (pick : List Location → Option Location)
    (hp : ValidPick pick) (df : List Location) (preference : String)
    (x : Location)
    (hx : x ∈ ((generate_random_trip pick df preference).drop 1).dropLast) :
    (x.lat < 37.2 ∨ (37.3 < x.lat ∧ x.lat < 38.6) ∨
        (39.0 < x.lat ∧ x.lat < 40.8)) ∧
      ¬(37.2 ≤ x.lat ∧ x.lat ≤ 37.3) ∧
      ¬(38.6 ≤ x.lat ∧ x.lat ≤ 39.0) ∧
      ¬(40.8 ≤ x.lat) := by
  have hb : x.lat < 37.2 ∨ (37.3 < x.lat ∧ x.lat < 38.6) ∨
      (39.0 < x.lat ∧ x.lat < 40.8) := by
    rcases mem_trip_middle pick hp df preference x hx with h | h | h
    · exact Or.inr (Or.inl (mem_alentejo_band _ x h).2)
    · exact Or.inl (mem_algarve_top5_band _ x h).2
    · exact Or.inr (Or.inr (mem_center_band _ x h).2)
  refine ⟨hb, ?_, ?_, ?_⟩
  · rintro ⟨ha, hc⟩
    rcases hb with h | ⟨h1, h2⟩ | ⟨h1, h2⟩ <;> linarith
  · rintro ⟨ha, hc⟩
    rcases hb with h | ⟨h1, h2⟩ | ⟨h1, h2⟩ <;> linarith
  · intro ha
    rcases hb with h | ⟨h1, h2⟩ | ⟨h1, h2⟩ <;> linarith

/-- The non-endpoint stops of the Balanced demo trip. -/
theorem demo_middle :
    ((generate_random_trip headPick demoDf "Balanced").drop 1).dropLast =
      [locA, locB, centerLoc] := by
  rw [trip_middle_eq, preference_candidates_balanced]
  have hb : algarve_band demoDf = [locB] := by
    norm_num [algarve_band, demoDf, locA, locB, centerLoc]
  have h5 : algarve_top5 demoDf = [locB] := by
    unfold algarve_top5
    rw [hb, List.mergeSort_singleton]
    rfl
  rw [h5, show alentejo_band demoDf = [locA] from by
    norm_num [alentejo_band, demoDf, locA, locB, centerLoc]]
  rw [show center_band demoDf = [centerLoc] from by
    norm_num [center_band, demoDf, locA, locB, centerLoc]]
  rfl

/-- Witness for C10: the first stop A of the demo trip (lat 38.0) lies in the
middle band. -/
theorem C10_band_gaps_witness :
    ValidPick headPick ∧
      locA ∈
        ((generate_random_trip headPick demoDf "Balanced").drop 1).dropLast ∧
      (locA.lat < 37.2 ∨ (37.3 < locA.lat ∧ locA.lat < 38.6) ∨
        (39.0 < locA.lat ∧ locA.lat < 40.8)) :=
  ⟨headPick_valid, by rw [demo_middle]; simp,
    (C10_band_gaps headPick headPick_valid demoDf "Balanced" locA
      (by rw [demo_middle]; simp)).1⟩

/-- Claim C8: on the two-location dataset {A, B} with the Balanced
preference, every valid sampling function deterministically yields
[Start, A, B, End]: A is the only Alentejo-band qualifier and B the only
Algarve-band qualifier, and the central band is empty. -/
theorem C8_scenario (pick : List Location → Option Location)
    (hp : ValidPick pick) :
    generate_random_trip pick [locA, locB] "Balanced" =
      [lisbonStart, locA, locB, portoEnd] := by
  have hsingle : ∀ z : Location, pick [z] = some z := by
    intro z
    cases h : pick [z] with
    | none => exact absurd ((hp [z]).1 h) (by simp)
    | some y =>
      have hy := (hp [z]).2 y h
      simp at hy
      exact congrArg some hy
  have hnone : pick [] = none := by
    cases h : pick [] with
    | none => rfl
    | some y =>
      have hy := (hp []).2 y h
      simp at hy
  have hb : algarve_band [locA, locB] = [locB] := by
    norm_num [algarve_band, locA, locB]
  have h5 : algarve_top5 [locA, locB] = [locB] := by
    unfold algarve_top5
    rw [hb, List.mergeSort_singleton]
    rfl
  simp only [generate_random_trip, preference_candidates_balanced]
  rw [show alentejo_band [locA, locB] = [locA] from by
    norm_num [alentejo_band, locA, locB], h5]
  rw [show center_band [locA, locB] = [] from by
    norm_num [center_band, locA, locB]]
  rw [hsingle locA, hsingle locB, hnone]
  rfl

/-- Witness for C8 with the deterministic head selection. -/
theorem C8_scenario_witness :
    ValidPick headPick ∧
      generate_random_trip headPick [locA, locB] "Balanced" =
        [lisbonStart, locA, locB, portoEnd] :=
  ⟨headPick_valid, C8_scenario headPick headPick_valid⟩

/-- A zero-duration leg is labelled "0m". -/
theorem format_drive_time_zero : format_drive_time 0 = "0m" := by
  norm_num [format_drive_time]
  rfl

/-- Under a routing collaborator that always fails, every leg after the
first stop is labelled "0m" and contributes nothing to the totals. -/
theorem assemble_legs_fail (prev : Location) (rest : List Location) :
    assemble_legs failFetch prev rest =
      (rest.map (fun stop => (stop, "0m")), 0, 0) := by
  induction rest generalizing prev with
  | nil => rfl
  | cons nextStop t ih =>
    simp [assemble_legs, ih, get_route_segment, failFetch,
      format_drive_time_zero]

/-- Claim C4: when the routing collaborator fails on every leg, each leg
resolves to the fallback segment (no geometry, distance 0, duration 0),
trip assembly still completes with total distance and total duration both
0, and every non-start stop carries the drive-time label "0m". -/
theorem C4_routing_failure (trip : List Location) (a b : ℚ × ℚ) :
    get_route_segment failFetch a b = (none, 0, 0) ∧
      (assemble_trip failFetch trip).2.1 = 0 ∧
      (assemble_trip failFetch trip).2.2 = 0 ∧
      ∀ p ∈ ((assemble_trip failFetch trip).1).drop 1, p.2 = "0m" := by
  have hcons : ∀ (first : Location) (rest : List Location),
      assemble_trip failFetch (first :: rest) =
        ((first, "Start") :: rest.map (fun stop => (stop, "0m")), 0, 0) := by
    intro first rest
    simp [assemble_trip, assemble_legs_fail]
  refine ⟨rfl, ?_, ?_, ?_⟩ <;> cases trip with
  | nil => simp [assemble_trip]
  | cons first rest => simp [hcons]

end PortuVan
